import Mathlib

/-!
Shallow embedding of the function-signature optimization pass declared in
`lib/SILOptimizer/Transforms/FunctionSignatureOpts.h`, and of the
`isPower(of:)` prototype in `performance.swift`, together with theorems
settling the specification claims about them.

External SIL facilities (SIL types, projection trees, the epilogue release
matcher, the `shouldExpand` legality oracle) are not part of the sources under
verification; they appear here as abstract data or oracle functions, so every
theorem quantifies over their behavior unless a claim pins it down.
-/

namespace FSO

/-- Argument passing conventions of SIL (`SILArgumentConvention`). -/
inductive SILArgumentConvention where
  | Indirect_In
  | Indirect_In_Constant
  | Indirect_In_Guaranteed
  | Indirect_Inout
  | Indirect_InoutAliasable
  | Indirect_Out
  | Direct_Owned
  | Direct_Unowned
  | Direct_Guaranteed
  deriving DecidableEq, Repr

/-- Ownership kinds of SIL values (`ValueOwnershipKind`). -/
inductive ValueOwnershipKind where
  | Trivial
  | Unowned
  | Owned
  | Guaranteed
  | Any
  deriving DecidableEq, Repr

/-- A SIL type, reduced to the facts the pass consults: its category
(object = directly passed value, address = indirectly passed) and whether it
contains archetypes (generic/opaque sub-parts). -/
structure SILType where
  isObjectCategory : Bool
  hasArchetypeFlag : Bool

/-- `SILType::isObject()`. -/
def SILType.isObject (t : SILType) : Bool := t.isObjectCategory

/-- `SILType::isAddress()`. -/
def SILType.isAddress (t : SILType) : Bool := !t.isObjectCategory

/-- `SILType::hasArchetype()`. -/
def SILType.hasArchetype (t : SILType) : Bool := t.hasArchetypeFlag

/-- `SILType::getObjectType()`: the object-category version of the type. -/
def SILType.getObjectType (t : SILType) : SILType :=
  { t with isObjectCategory := true }

/-- The projection tree of an argument (`ProjectionTree`), reduced to the two
facts `shouldExplode` consults: whether the tree is a singleton and the number
of live leaves. -/
structure ProjectionTree where
  singleton : Bool
  liveLeafCount : Nat

/-- `ProjectionTree::isSingleton()`. -/
def ProjectionTree.isSingleton (p : ProjectionTree) : Bool := p.singleton

/-- `ProjectionTree::getLiveLeafCount()`. -/
def ProjectionTree.getLiveLeafCount (p : ProjectionTree) : Nat := p.liveLeafCount

/-- A SIL module, reduced to the per-type oracles the pass consults.
`projectionTreeOf` models `ProjectionTree(M, Ty)` construction,
`expandTypeOracle` models the external `shouldExpand(M, Ty)` legality oracle,
and `trivialOracle` models `SILType::isTrivial(M)`; the pass treats all three
as authoritative external services. -/
structure SILModule where
  projectionTreeOf : SILType → ProjectionTree
  expandTypeOracle : SILType → Bool
  trivialOracle : SILType → Bool

/-- The external per-type legality oracle `shouldExpand(M, Ty)` consulted by
`ArgumentDescriptor::shouldExplode`. -/
def shouldExpand (M : SILModule) (Ty : SILType) : Bool :=
  M.expandTypeOracle Ty

/-- `SILType::isTrivial(M)`. -/
def SILType.isTrivial (t : SILType) (M : SILModule) : Bool :=
  M.trivialOracle t

/-- Parameter conventions recorded in `SILParameterInfo`. -/
inductive ParameterConvention where
  | Indirect_In
  | Indirect_In_Constant
  | Indirect_In_Guaranteed
  | Indirect_Inout
  | Indirect_InoutAliasable
  | Direct_Owned
  | Direct_Unowned
  | Direct_Guaranteed
  deriving DecidableEq, Repr

/-- `SILParameterInfo`: a parameter type together with its convention. -/
structure SILParameterInfo where
  typeId : Nat
  convention : ParameterConvention
  deriving DecidableEq, Repr

/-- A `SILFunctionArgument`, reduced to the queries the pass performs on it:
its module, type, convention, stable index, indirect-result flag, ownership
kind, declaration and known parameter info. -/
structure SILFunctionArgument where
  module : SILModule
  type : SILType
  convention : SILArgumentConvention
  indexVal : Nat
  isIndirectResultFlag : Bool
  ownershipKindVal : ValueOwnershipKind
  declId : Option Nat
  knownParameterInfo : Option SILParameterInfo

/-- `SILArgument::hasConvention(P)`. -/
def SILFunctionArgument.hasConvention (A : SILFunctionArgument)
    (P : SILArgumentConvention) : Bool :=
  decide (A.convention = P)

/-- `SILFunctionArgument::getIndex()`. -/
def SILFunctionArgument.getIndex (A : SILFunctionArgument) : Nat := A.indexVal

/-- `SILFunctionArgument::isIndirectResult()`. -/
def SILFunctionArgument.isIndirectResult (A : SILFunctionArgument) : Bool :=
  A.isIndirectResultFlag

/-- `SILValue::getOwnershipKind()`. -/
def SILFunctionArgument.getOwnershipKind (A : SILFunctionArgument) :
    ValueOwnershipKind :=
  A.ownershipKindVal

/-- Modelled from the spec: the epilogue release matcher
(`ConsumedArgToEpilogueReleaseMatcher`, declared in ARCAnalysis.h, which is not
under src/). Per the spec it "returns the complete or partial set of
reference-count operations attributable to" an argument; we record, per
argument, the matched release sites and whether the match is complete. -/
structure ConsumedArgToEpilogueReleaseMatcher where
  releasesForArgument : SILFunctionArgument → List Nat
  foundAllReleases : SILFunctionArgument → Bool

/-- Modelled from the spec: the matcher query used by `shouldExplode`.
The implementation is not under src/; the spec's invariant section describes
the condition it reports as "at least one matched release even if not all
releases were found", so the query holds exactly when the matched set is
non-empty and the match is incomplete. -/
def ConsumedArgToEpilogueReleaseMatcher.hasSomeReleasesForArgument
    (ERM : ConsumedArgToEpilogueReleaseMatcher)
    (A : SILFunctionArgument) : Bool :=
  !(ERM.releasesForArgument A).isEmpty && !ERM.foundAllReleases A

/-- `ArgumentDescriptor`: all of the information about a specific
`SILArgument` that the pass tracks. -/
structure ArgumentDescriptor where
  Arg : SILFunctionArgument
  PInfo : Option SILParameterInfo
  Index : Nat
  Decl : Option Nat
  IsEntirelyDead : Bool
  WasErased : Bool
  Explode : Bool
  OwnedToGuaranteed : Bool
  IsIndirectResult : Bool
  CalleeRelease : List Nat
  CalleeReleaseInThrowBlock : List Nat
  ProjTree : ProjectionTree

/-- The `ArgumentDescriptor(SILFunctionArgument *A)` constructor: caches the
argument's index, decl, indirect-result flag and parameter info, leaves every
optimization decision flag false and both release lists empty, and builds the
projection tree from the argument's module and type. (The constructor body
re-assigns `PInfo` from `getKnownParameterInfo()` for non-indirect-result
arguments; the net effect equals the member initializer.) -/
def ArgumentDescriptor.ofArg (A : SILFunctionArgument) : ArgumentDescriptor :=
  { Arg := A
    PInfo := A.knownParameterInfo
    Index := A.getIndex
    Decl := A.declId
    IsEntirelyDead := false
    WasErased := false
    Explode := false
    OwnedToGuaranteed := false
    IsIndirectResult := A.isIndirectResult
    CalleeRelease := []
    CalleeReleaseInThrowBlock := []
    ProjTree := A.module.projectionTreeOf A.type }

/-- `ArgumentDescriptor::hasConvention(P)`. -/
def ArgumentDescriptor.hasConvention (d : ArgumentDescriptor)
    (P : SILArgumentConvention) : Bool :=
  d.Arg.hasConvention P

/-- `ArgumentDescriptor::canOptimizeLiveArg()`. -/
def ArgumentDescriptor.canOptimizeLiveArg (d : ArgumentDescriptor) : Bool :=
  if d.Arg.type.isObject then true
  else if d.Arg.type.hasArchetype && d.Arg.type.isAddress &&
      (d.Arg.hasConvention SILArgumentConvention.Indirect_In ||
       d.Arg.hasConvention SILArgumentConvention.Indirect_In_Guaranteed) then
    true
  else false

/-- `ArgumentDescriptor::shouldExplode(ERM)`. -/
def ArgumentDescriptor.shouldExplode (d : ArgumentDescriptor)
    (ERM : ConsumedArgToEpilogueReleaseMatcher) : Bool :=
  if !d.canOptimizeLiveArg then false
  else if d.ProjTree.isSingleton then false
  else
    let Ty := d.Arg.type.getObjectType
    if !shouldExpand d.Arg.module Ty then false
    else if d.hasConvention SILArgumentConvention.Direct_Owned &&
        ERM.hasSomeReleasesForArgument d.Arg then true
    else
      let explosionSize := d.ProjTree.getLiveLeafCount
      decide (explosionSize ≥ 1) && decide (explosionSize ≤ 3)

/-- `ArgumentDescriptor::getTransformedOwnershipKind(SubTy)`. -/
def ArgumentDescriptor.getTransformedOwnershipKind (d : ArgumentDescriptor)
    (SubTy : SILType) : Option ValueOwnershipKind :=
  if d.IsEntirelyDead then none
  else if SubTy.isTrivial d.Arg.module then some ValueOwnershipKind.Trivial
  else if d.OwnedToGuaranteed then some ValueOwnershipKind.Guaranteed
  else some d.Arg.getOwnershipKind

/-- Result conventions of SIL (`ResultConvention`). -/
inductive ResultConvention where
  | Indirect
  | Owned
  | Unowned
  | UnownedInnerPointer
  | Autoreleased
  deriving DecidableEq, Repr

/-- `SILResultInfo`: a direct result's type together with its convention. -/
structure SILResultInfo where
  typeId : Nat
  resultConvention : ResultConvention
  deriving DecidableEq, Repr

/-- `SILResultInfo::getConvention()`. -/
def SILResultInfo.getConvention (RI : SILResultInfo) : ResultConvention :=
  RI.resultConvention

/-- `ResultDescriptor`: all of the information about a specific direct result
that the pass tracks. -/
structure ResultDescriptor where
  ResultInfo : SILResultInfo
  CalleeRetain : List Nat
  OwnedToGuaranteed : Bool
  deriving DecidableEq, Repr

/-- The `ResultDescriptor(SILResultInfo RI)` constructor: caches the result
info, leaves the retain set empty and the owned-to-guaranteed decision false. -/
def ResultDescriptor.ofResult (RI : SILResultInfo) : ResultDescriptor :=
  { ResultInfo := RI, CalleeRetain := [], OwnedToGuaranteed := false }

/-- `ResultDescriptor::hasConvention(R)`. -/
def ResultDescriptor.hasConvention (rd : ResultDescriptor)
    (R : ResultConvention) : Bool :=
  decide (rd.ResultInfo.getConvention = R)

/-- A SIL function, reduced to the parts the engine may rewrite: its name,
its signature (parameter list) and its instruction body (abstract instruction
handles). -/
structure SILFunction where
  name : String
  parameters : List SILParameterInfo
  body : List Nat
  deriving DecidableEq, Repr

/-- `FunctionSignatureTransformDescriptor`: the data the engine uses during
its transformation. `OptimizedFunction` models the `NullablePtr` to the new
function; `AIM` models the old-to-new argument index map. -/
structure FunctionSignatureTransformDescriptor where
  OriginalFunction : SILFunction
  OptimizedFunction : Option SILFunction
  AIM : List (Int × Int)
  shouldModifySelfArgument : Bool
  ArgumentDescList : List ArgumentDescriptor
  ResultDescList : List ResultDescriptor

/-- `FunctionSignatureTransform`: holds the transform descriptor. (The RC
identity and epilogue ARC analysis handles the C++ class also stores play no
role in the functions modelled here and are omitted.) -/
structure FunctionSignatureTransform where
  TransformDescriptor : FunctionSignatureTransformDescriptor

/-- The `FunctionSignatureTransform` constructor: initializes the transform
descriptor as `{F, nullptr, AIM, false, ADL, RDL}` — in particular the
optimized function starts absent and the self-argument flag false. -/
def FunctionSignatureTransform.create (F : SILFunction)
    (AIM : List (Int × Int)) (ADL : List ArgumentDescriptor)
    (RDL : List ResultDescriptor) : FunctionSignatureTransform :=
  { TransformDescriptor :=
    { OriginalFunction := F
      OptimizedFunction := none
      AIM := AIM
      shouldModifySelfArgument := false
      ArgumentDescList := ADL
      ResultDescList := RDL } }

/-- `FunctionSignatureTransform::getOptimizedFunction()`: the nullable pointer
to the specialized function, as an optional handle. -/
def FunctionSignatureTransform.getOptimizedFunction
    (T : FunctionSignatureTransform) : Option SILFunction :=
  T.TransformDescriptor.OptimizedFunction

/-- The state `run` operates on: the transform (with its descriptor lists and
function handles) together with the module's function table. -/
structure EngineState where
  transform : FunctionSignatureTransform
  functionTable : List SILFunction

/-- The argument descriptor list of the state's transform. -/
def EngineState.argDescs (st : EngineState) : List ArgumentDescriptor :=
  st.transform.TransformDescriptor.ArgumentDescList

/-- The result descriptor list of the state's transform. -/
def EngineState.resDescs (st : EngineState) : List ResultDescriptor :=
  st.transform.TransformDescriptor.ResultDescList

/-- Replace the argument descriptor list (analysis bookkeeping; leaves the
functions and the table untouched). -/
def EngineState.setArgDescs (st : EngineState)
    (ads : List ArgumentDescriptor) : EngineState :=
  { st with transform :=
    { TransformDescriptor :=
      { st.transform.TransformDescriptor with ArgumentDescList := ads } } }

/-- Replace the result descriptor list (analysis bookkeeping; leaves the
functions and the table untouched). -/
def EngineState.setResDescs (st : EngineState)
    (rds : List ResultDescriptor) : EngineState :=
  { st with transform :=
    { TransformDescriptor :=
      { st.transform.TransformDescriptor with ResultDescList := rds } } }

/-- Rewrite the original function in place (an IR mutation of the one function
the pass owns). -/
def EngineState.setOriginal (st : EngineState) (F : SILFunction) : EngineState :=
  { st with transform :=
    { TransformDescriptor :=
      { st.transform.TransformDescriptor with OriginalFunction := F } } }

/-- Modelled from the spec: the three sub-analyses and the rewrite steps of
the engine, whose bodies are not under src/ (only their declarations are).
Per the spec the analyses are pure functions over descriptor state that
report whether any descriptor was marked eligible, the transform steps
rewrite the current function, and synthesis builds the specialized function
and the thunk body. All are kept abstract, so the theorems below hold for
every implementation of them. `canRewriteIndirectReferences` models the
policy, threaded in from the orchestrating caller, that allows
convention-changing transforms on caller-less functions. -/
structure SubAnalyses where
  deadArgAnalyze : List ArgumentDescriptor → List ArgumentDescriptor × Bool
  o2gAnalyze : List ArgumentDescriptor → List ResultDescriptor →
    (List ArgumentDescriptor × List ResultDescriptor) × Bool
  explosionAnalyze : List ArgumentDescriptor → List ArgumentDescriptor × Bool
  deadArgTransformFn : FunctionSignatureTransformDescriptor → SILFunction
  o2gTransformFn : FunctionSignatureTransformDescriptor → SILFunction
  synthesizeFunction : FunctionSignatureTransformDescriptor → SILFunction
  makeThunk : FunctionSignatureTransformDescriptor → SILFunction → SILFunction
  canRewriteIndirectReferences : Bool

/-- Modelled from the spec: `createFunctionSignatureOptimizedFunction` (body
not under src/). It synthesizes the specialized function from the descriptor
state, records it as the optimized function, adds it to the module's function
table, and rewrites the original function's body into a forwarding thunk. -/
def createFunctionSignatureOptimizedFunction (A : SubAnalyses)
    (st : EngineState) : EngineState :=
  let td := st.transform.TransformDescriptor
  let newF := A.synthesizeFunction td
  let thunk := A.makeThunk td newF
  { transform :=
      { TransformDescriptor :=
        { td with OptimizedFunction := some newF, OriginalFunction := thunk } }
    functionTable := st.functionTable ++ [newF] }

/-- Modelled from the spec: the analysis pipeline of
`FunctionSignatureTransform::run` (body not under src/). It executes, in
fixed order, the dead-argument, owned-to-guaranteed and explosion analyses
over the descriptor lists; each analysis that marks a descriptor eligible is
followed by its in-place rewrite of the current function, so later analyses
see post-rewrite state; it reports whether any of the three found an
opportunity. -/
def runAnalyses (A : SubAnalyses) (st : EngineState) : EngineState × Bool :=
  let r1 := A.deadArgAnalyze st.argDescs
  let st1 := st.setArgDescs r1.1
  let st2 :=
    if r1.2 then
      st1.setOriginal (A.deadArgTransformFn st1.transform.TransformDescriptor)
    else st1
  let r2 := A.o2gAnalyze st2.argDescs st2.resDescs
  let st3 := (st2.setArgDescs r2.1.1).setResDescs r2.1.2
  let st4 :=
    if r2.2 then
      st3.setOriginal (A.o2gTransformFn st3.transform.TransformDescriptor)
    else st3
  let r3 := A.explosionAnalyze st4.argDescs
  let st5 := st4.setArgDescs r3.1
  (st5, r1.2 || r2.2 || r3.2)

/-- Modelled from the spec: `FunctionSignatureTransform::run(hasCaller)`
(body not under src/). It runs the three analyses in order; if none marked
any descriptor eligible, it reports no opportunity and performs no mutation;
otherwise it creates the specialized function and returns true. A caller-less
function is processed only when the threaded-in policy allows convention
changes without a caller. -/
def FunctionSignatureTransform.run (A : SubAnalyses) (st : EngineState)
    (hasCaller : Bool) : EngineState × Bool :=
  if !hasCaller && !A.canRewriteIndirectReferences then (st, false)
  else
    let p := runAnalyses A st
    if p.2 then (createFunctionSignatureOptimizedFunction A p.1, true)
    else (p.1, false)

/-! Concrete instantiations of the external oracles, used by the witness and
counterexample theorems below. -/

/-- A module whose projection trees are non-singleton with two live leaves,
with expansion always legal and triviality given by absence of archetypes. -/
def moduleLeaf2 : SILModule :=
  { projectionTreeOf := fun _ => { singleton := false, liveLeafCount := 2 }
    expandTypeOracle := fun _ => true
    trivialOracle := fun t => !t.hasArchetypeFlag }

/-- A module whose projection trees are non-singleton with five live leaves. -/
def moduleLeaf5 : SILModule :=
  { projectionTreeOf := fun _ => { singleton := false, liveLeafCount := 5 }
    expandTypeOracle := fun _ => true
    trivialOracle := fun t => !t.hasArchetypeFlag }

/-- A module whose projection trees are singletons. -/
def moduleSingleton : SILModule :=
  { projectionTreeOf := fun _ => { singleton := true, liveLeafCount := 1 }
    expandTypeOracle := fun _ => true
    trivialOracle := fun t => !t.hasArchetypeFlag }

/-- An object-category type with no archetypes. -/
def objNoArchType : SILType :=
  { isObjectCategory := true, hasArchetypeFlag := false }

/-- An object-category type containing archetypes. -/
def objArchType : SILType :=
  { isObjectCategory := true, hasArchetypeFlag := true }

/-- An address-category type with no archetypes. -/
def addrNoArchType : SILType :=
  { isObjectCategory := false, hasArchetypeFlag := false }

/-- A directly passed guaranteed argument of a two-leaf decomposable type. -/
def argGuaranteed2 : SILFunctionArgument :=
  { module := moduleLeaf2
    type := objNoArchType
    convention := SILArgumentConvention.Direct_Guaranteed
    indexVal := 0
    isIndirectResultFlag := false
    ownershipKindVal := ValueOwnershipKind.Guaranteed
    declId := none
    knownParameterInfo :=
      some { typeId := 0, convention := ParameterConvention.Direct_Guaranteed } }

/-- A directly passed owned argument of a five-leaf decomposable type. -/
def argOwned5 : SILFunctionArgument :=
  { module := moduleLeaf5
    type := objArchType
    convention := SILArgumentConvention.Direct_Owned
    indexVal := 1
    isIndirectResultFlag := false
    ownershipKindVal := ValueOwnershipKind.Owned
    declId := none
    knownParameterInfo :=
      some { typeId := 1, convention := ParameterConvention.Direct_Owned } }

/-- A directly passed owned argument whose projection tree is a singleton. -/
def argSingletonOwned : SILFunctionArgument :=
  { module := moduleSingleton
    type := objNoArchType
    convention := SILArgumentConvention.Direct_Owned
    indexVal := 2
    isIndirectResultFlag := false
    ownershipKindVal := ValueOwnershipKind.Owned
    declId := none
    knownParameterInfo :=
      some { typeId := 2, convention := ParameterConvention.Direct_Owned } }

/-- An indirectly passed (address-category) argument of an archetype-free
type under the Indirect_In convention. -/
def argAddrPlain : SILFunctionArgument :=
  { module := moduleLeaf2
    type := addrNoArchType
    convention := SILArgumentConvention.Indirect_In
    indexVal := 3
    isIndirectResultFlag := false
    ownershipKindVal := ValueOwnershipKind.Trivial
    declId := none
    knownParameterInfo :=
      some { typeId := 3, convention := ParameterConvention.Indirect_In } }

/-- A matcher that found no releases at all (and so no complete set either). -/
def ermNone : ConsumedArgToEpilogueReleaseMatcher :=
  { releasesForArgument := fun _ => []
    foundAllReleases := fun _ => false }

/-- A matcher that matched one release per argument without completing the
set. -/
def ermPartial : ConsumedArgToEpilogueReleaseMatcher :=
  { releasesForArgument := fun _ => [7]
    foundAllReleases := fun _ => false }

/-- A descriptor marked entirely dead. -/
def descDead : ArgumentDescriptor :=
  { ArgumentDescriptor.ofArg argGuaranteed2 with IsEntirelyDead := true }

/-- A descriptor with the owned-to-guaranteed decision set. -/
def descO2G : ArgumentDescriptor :=
  { ArgumentDescriptor.ofArg argOwned5 with OwnedToGuaranteed := true }

/-- A freshly built descriptor with no decisions set. -/
def descPlain : ArgumentDescriptor :=
  ArgumentDescriptor.ofArg argOwned5

/-- Sub-analyses that never mark a descriptor eligible, with trivial rewrite
oracles. -/
def trivialAnalyses : SubAnalyses :=
  { deadArgAnalyze := fun ds => (ds, false)
    o2gAnalyze := fun ds rs => ((ds, rs), false)
    explosionAnalyze := fun ds => (ds, false)
    deadArgTransformFn := fun td => td.OriginalFunction
    o2gTransformFn := fun td => td.OriginalFunction
    synthesizeFunction := fun td => td.OriginalFunction
    makeThunk := fun _ newF => newF
    canRewriteIndirectReferences := false }

/-- A concrete function with one parameter and a two-instruction body. -/
def fnF0 : SILFunction :=
  { name := "f0"
    parameters := [{ typeId := 0, convention := ParameterConvention.Direct_Owned }]
    body := [1, 2] }

/-- The engine state for a fresh transform on `fnF0`, whose module table
holds just `fnF0`. -/
def st0 : EngineState :=
  { transform := FunctionSignatureTransform.create fnF0 [] [] []
    functionTable := [fnF0] }

end FSO

namespace PowerOfTwo

/-- A value of a `BinaryInteger` type, as the power-of-two prototypes in
`performance.swift` observe it: whether the type is signed, the bit width `b`
of one `UInt` word (64 on the benchmarked platform), and the `words`
collection — the little-endian two's-complement word representation of the
value, each word below `2 ^ wordBits` and, per the protocol, non-empty. -/
structure BinaryIntegerValue where
  wordBits : Nat
  isSigned : Bool
  words : List Nat

/-- The representation invariants `BinaryInteger` guarantees for `words`. -/
def WellFormed (x : BinaryIntegerValue) : Prop :=
  0 < x.wordBits ∧ x.words ≠ [] ∧ ∀ w ∈ x.words, w < 2 ^ x.wordBits

/-- The unsigned little-endian value of a word list with word bit width `b`. -/
def wordsToNat (b : Nat) : List Nat → Nat
  | [] => 0
  | w :: ws => w + 2 ^ b * wordsToNat b ws

/-- Whether a word's most significant bit is set; this is exactly the test
`Int(bitPattern: word) < 0` performed by `_isPowerOfTwo_words`. -/
def signBitSet (b : Nat) (w : Nat) : Bool :=
  decide (2 ^ (b - 1) ≤ w)

/-- The integer the words denote: the unsigned value, shifted down by
`2 ^ (b * count)` when the type is signed and the most significant word has
its sign bit set (two's complement). -/
def value (x : BinaryIntegerValue) : Int :=
  let n : Int := wordsToNat x.wordBits x.words
  if x.isSigned && signBitSet x.wordBits (x.words.getLastD 0) then
    n - 2 ^ (x.wordBits * x.words.length)
  else n

/-- `_isPowerOfTwo_classic`: `self > 0 && self & (self - 1) == 0`. When
`self > 0`, both `self` and `self - 1` are non-negative, so the type's `&`
and `-` agree with the operations on the denoted integer; when `self <= 0`
the `&&` short-circuits. -/
def _isPowerOfTwo_classic (x : BinaryIntegerValue) : Bool :=
  decide (0 < value x) &&
    decide (Nat.land (value x).toNat ((value x).toNat - 1) = 0)

/-- The single-word fast path of `_isPowerOfTwo_words`:
`word > 0 && word & (word - 1) == 0` on the raw word. -/
def singleWordCheck (w : Nat) : Bool :=
  decide (0 < w) && decide (Nat.land w (w - 1) = 0)

/-- The loop of `_isPowerOfTwo_words` over the words, with the running
`foundPowerOfTwoWord` flag: a zero word is skipped; a second non-zero word,
or a non-zero word that is not a power of two, returns false. -/
def scanWords : List Nat → Bool → Bool
  | [], found => found
  | w :: ws, found =>
    if w = 0 then scanWords ws found
    else if found then false
    else if Nat.land w (w - 1) ≠ 0 then false
    else scanWords ws true

/-- `_isPowerOfTwo_words`: the classic check on the single word when the
value is represented in one word; otherwise false for a negative value (sign
bit of the most significant word), else true iff there is exactly one
non-zero word and it is a power of two. -/
def _isPowerOfTwo_words (x : BinaryIntegerValue) : Bool :=
  if x.words.length = 1 then
    singleWordCheck (x.words.headD 0)
  else if x.isSigned && signBitSet x.wordBits (x.words.getLastD 0) then
    false
  else
    scanWords x.words false

/-- `Int64.min`: the 64-bit signed value `-2 ^ 63`, whose `words` collection
is the single word `0x8000000000000000`. -/
def int64Min : BinaryIntegerValue :=
  { wordBits := 64, isSigned := true, words := [2 ^ 63] }

end PowerOfTwo

namespace FSO

/-- Claim C1: for every argument that passes the explosion eligibility steps
(optimizable per canOptimizeLiveArg, non-singleton projection tree, expansion
oracle approves the type) and for which the owning-argument override does not
apply, shouldExplode returns true if and only if the projection tree's
live-leaf count is between 1 and 3 inclusive. -/
theorem shouldExplode_iff_leafCount_in_range
    (d : ArgumentDescriptor) (ERM : ConsumedArgToEpilogueReleaseMatcher)
    (h1 : d.canOptimizeLiveArg = true)
    (h2 : d.ProjTree.isSingleton = false)
    (h3 : shouldExpand d.Arg.module d.Arg.type.getObjectType = true)
    (h4 : ¬(d.hasConvention SILArgumentConvention.Direct_Owned = true ∧
            ERM.hasSomeReleasesForArgument d.Arg = true)) :
    d.shouldExplode ERM = true ↔
      1 ≤ d.ProjTree.getLiveLeafCount ∧ d.ProjTree.getLiveLeafCount ≤ 3 := by
  have h4' : (d.hasConvention SILArgumentConvention.Direct_Owned &&
      ERM.hasSomeReleasesForArgument d.Arg) = false := by
    cases hA : d.hasConvention SILArgumentConvention.Direct_Owned with
    | false => simp
    | true =>
      cases hB : ERM.hasSomeReleasesForArgument d.Arg with
      | false => simp
      | true => exact absurd ⟨hA, hB⟩ h4
  unfold ArgumentDescriptor.shouldExplode
  simp [h1, h2, h3, h4', ge_iff_le]

/-- Witness for C1: a guaranteed two-live-leaf argument passes every
eligibility step, the override does not apply, and the equivalence holds. -/
theorem shouldExplode_iff_leafCount_in_range_witness :
    (ArgumentDescriptor.ofArg argGuaranteed2).canOptimizeLiveArg = true ∧
    (ArgumentDescriptor.ofArg argGuaranteed2).ProjTree.isSingleton = false ∧
    ((ArgumentDescriptor.ofArg argGuaranteed2).shouldExplode ermNone = true ↔
      1 ≤ (ArgumentDescriptor.ofArg argGuaranteed2).ProjTree.getLiveLeafCount ∧
        (ArgumentDescriptor.ofArg argGuaranteed2).ProjTree.getLiveLeafCount ≤ 3) :=
  ⟨rfl, rfl,
    shouldExplode_iff_leafCount_in_range (ArgumentDescriptor.ofArg argGuaranteed2)
      ermNone rfl rfl rfl (by decide)⟩

/-- Counterexample to claim C2 as stated: an owned argument that passes every
eligibility step and none of whose releases were found (so "not all of its
releases were found" holds) is still rejected when its live-leaf count (five)
is outside [1,3] — the override needs at least one matched release, not
merely an incomplete match. -/
theorem ownedOverride_zero_releases_counterexample :
    (ArgumentDescriptor.ofArg argOwned5).hasConvention
        SILArgumentConvention.Direct_Owned = true ∧
    ermNone.foundAllReleases argOwned5 = false ∧
    ermNone.releasesForArgument argOwned5 = [] ∧
    (ArgumentDescriptor.ofArg argOwned5).canOptimizeLiveArg = true ∧
    (ArgumentDescriptor.ofArg argOwned5).ProjTree.isSingleton = false ∧
    shouldExpand argOwned5.module argOwned5.type.getObjectType = true ∧
    (ArgumentDescriptor.ofArg argOwned5).ProjTree.getLiveLeafCount = 5 ∧
    (ArgumentDescriptor.ofArg argOwned5).shouldExplode ermNone = false :=
  ⟨rfl, rfl, rfl, rfl, rfl, rfl, rfl, rfl⟩

/-- Claim C2 (amended): for every owned-convention argument for which the
release matcher found at least one release but not the complete set, and
which passes the earlier eligibility steps, shouldExplode returns true
regardless of the live-leaf count; the override applies exactly when the
matcher reports some-but-not-all releases. -/
theorem shouldExplode_ownedOverride
    (d : ArgumentDescriptor) (ERM : ConsumedArgToEpilogueReleaseMatcher)
    (h1 : d.canOptimizeLiveArg = true)
    (h2 : d.ProjTree.isSingleton = false)
    (h3 : shouldExpand d.Arg.module d.Arg.type.getObjectType = true)
    (h4 : d.hasConvention SILArgumentConvention.Direct_Owned = true)
    (h5 : (ERM.releasesForArgument d.Arg).isEmpty = false)
    (h6 : ERM.foundAllReleases d.Arg = false) :
    d.shouldExplode ERM = true := by
  have hs : ERM.hasSomeReleasesForArgument d.Arg = true := by
    unfold ConsumedArgToEpilogueReleaseMatcher.hasSomeReleasesForArgument
    simp [h5, h6]
  unfold ArgumentDescriptor.shouldExplode
  simp [h1, h2, h3, h4, hs]

/-- Witness for the amended C2: the five-live-leaf owned argument with one
matched but incomplete release is exploded despite its leaf count. -/
theorem shouldExplode_ownedOverride_witness :
    (ArgumentDescriptor.ofArg argOwned5).ProjTree.getLiveLeafCount = 5 ∧
    (ArgumentDescriptor.ofArg argOwned5).shouldExplode ermPartial = true :=
  ⟨rfl,
    shouldExplode_ownedOverride (ArgumentDescriptor.ofArg argOwned5) ermPartial
      rfl rfl rfl rfl rfl rfl⟩

/-- Claim C3: whenever shouldExplode returns true, either the projection tree
is non-singleton with a live-leaf count between 1 and 3, or the argument has
the owned convention and the matcher found at least one release for it. -/
theorem shouldExplode_invariant
    (d : ArgumentDescriptor) (ERM : ConsumedArgToEpilogueReleaseMatcher)
    (h : d.shouldExplode ERM = true) :
    (d.ProjTree.isSingleton = false ∧ 1 ≤ d.ProjTree.getLiveLeafCount ∧
      d.ProjTree.getLiveLeafCount ≤ 3) ∨
    (d.hasConvention SILArgumentConvention.Direct_Owned = true ∧
      (ERM.releasesForArgument d.Arg).isEmpty = false) := by
  unfold ArgumentDescriptor.shouldExplode at h
  cases hco : d.canOptimizeLiveArg with
  | false => simp [hco] at h
  | true =>
    simp only [hco, Bool.not_true, Bool.false_eq_true, if_false] at h
    cases hsing : d.ProjTree.isSingleton with
    | true => simp [hsing] at h
    | false =>
      simp only [hsing, Bool.false_eq_true, if_false] at h
      cases hexp : shouldExpand d.Arg.module d.Arg.type.getObjectType with
      | false => simp [hexp] at h
      | true =>
        simp only [hexp, Bool.not_true, Bool.false_eq_true, if_false] at h
        cases hov : (d.hasConvention SILArgumentConvention.Direct_Owned &&
            ERM.hasSomeReleasesForArgument d.Arg) with
        | true =>
          rcases Bool.and_eq_true_iff.mp hov with ⟨hconv, hsome⟩
          unfold ConsumedArgToEpilogueReleaseMatcher.hasSomeReleasesForArgument
            at hsome
          rcases Bool.and_eq_true_iff.mp hsome with ⟨hne, _⟩
          exact Or.inr ⟨hconv, by simpa using hne⟩
        | false =>
          simp only [hov, Bool.false_eq_true, if_false] at h
          rcases Bool.and_eq_true_iff.mp h with ⟨hlo, hhi⟩
          exact Or.inl ⟨rfl, by simpa using of_decide_eq_true hlo,
            of_decide_eq_true hhi⟩

/-- Witness for C3, applied at the exploded two-live-leaf guaranteed
argument. -/
theorem shouldExplode_invariant_witness :
    ((ArgumentDescriptor.ofArg argGuaranteed2).ProjTree.isSingleton = false ∧
      1 ≤ (ArgumentDescriptor.ofArg argGuaranteed2).ProjTree.getLiveLeafCount ∧
      (ArgumentDescriptor.ofArg argGuaranteed2).ProjTree.getLiveLeafCount ≤ 3) ∨
    ((ArgumentDescriptor.ofArg argGuaranteed2).hasConvention
        SILArgumentConvention.Direct_Owned = true ∧
      (ermNone.releasesForArgument (ArgumentDescriptor.ofArg argGuaranteed2).Arg).isEmpty
        = false) :=
  shouldExplode_invariant (ArgumentDescriptor.ofArg argGuaranteed2) ermNone rfl

/-- Claim C4: an argument whose projection tree is a singleton is never
exploded, irrespective of convention, matched releases, oracle verdict or
live-leaf count. -/
theorem shouldExplode_singleton_rejected
    (d : ArgumentDescriptor) (ERM : ConsumedArgToEpilogueReleaseMatcher)
    (h : d.ProjTree.isSingleton = true) :
    d.shouldExplode ERM = false := by
  unfold ArgumentDescriptor.shouldExplode
  cases hco : d.canOptimizeLiveArg <;> simp [hco, h]

/-- Witness for C4: a singleton-tree owned argument with a partially matched
release and an approving oracle is still rejected. -/
theorem shouldExplode_singleton_rejected_witness :
    (ArgumentDescriptor.ofArg argSingletonOwned).ProjTree.isSingleton = true ∧
    (ArgumentDescriptor.ofArg argSingletonOwned).hasConvention
        SILArgumentConvention.Direct_Owned = true ∧
    (ArgumentDescriptor.ofArg argSingletonOwned).shouldExplode ermPartial = false :=
  ⟨rfl, rfl,
    shouldExplode_singleton_rejected (ArgumentDescriptor.ofArg argSingletonOwned)
      ermPartial rfl⟩

end FSO

namespace FSO

/-- Counterexample to claim C5 as stated: an indirectly-passed (address
category) argument of a type with no generic/opaque sub-parts (no archetype)
under the Indirect_In convention is rejected by canOptimizeLiveArg, although
the claim declares archetype-free indirect arguments eligible. -/
theorem canOptimizeLiveArg_addr_noArchetype_counterexample :
    argAddrPlain.type.isObject = false ∧
    argAddrPlain.type.isAddress = true ∧
    argAddrPlain.type.hasArchetype = false ∧
    argAddrPlain.hasConvention SILArgumentConvention.Indirect_In = true ∧
    (ArgumentDescriptor.ofArg argAddrPlain).canOptimizeLiveArg = false :=
  ⟨rfl, rfl, rfl, rfl, rfl⟩

/-- Claim C5 (amended): canOptimizeLiveArg accepts an argument if and only if
its type is an object (directly-passed value) type, or its type is an address
type that contains an archetype and the convention is Indirect_In or
Indirect_In_Guaranteed; address-typed arguments of archetype-free types are
rejected. -/
theorem canOptimizeLiveArg_iff (d : ArgumentDescriptor) :
    d.canOptimizeLiveArg = true ↔
      (d.Arg.type.isObject = true ∨
        (d.Arg.type.hasArchetype = true ∧ d.Arg.type.isAddress = true ∧
          (d.Arg.convention = SILArgumentConvention.Indirect_In ∨
           d.Arg.convention = SILArgumentConvention.Indirect_In_Guaranteed))) := by
  unfold ArgumentDescriptor.canOptimizeLiveArg SILFunctionArgument.hasConvention
    SILType.isObject SILType.isAddress SILType.hasArchetype
  cases ho : d.Arg.type.isObjectCategory <;>
    cases ha : d.Arg.type.hasArchetypeFlag <;>
      simp [ho, ha]

/-- Witness for the amended C5, instantiated at the address-typed
archetype-free Indirect_In argument. -/
theorem canOptimizeLiveArg_iff_witness :
    (ArgumentDescriptor.ofArg argAddrPlain).canOptimizeLiveArg = true ↔
      ((ArgumentDescriptor.ofArg argAddrPlain).Arg.type.isObject = true ∨
        ((ArgumentDescriptor.ofArg argAddrPlain).Arg.type.hasArchetype = true ∧
          (ArgumentDescriptor.ofArg argAddrPlain).Arg.type.isAddress = true ∧
          ((ArgumentDescriptor.ofArg argAddrPlain).Arg.convention =
              SILArgumentConvention.Indirect_In ∨
           (ArgumentDescriptor.ofArg argAddrPlain).Arg.convention =
              SILArgumentConvention.Indirect_In_Guaranteed))) :=
  canOptimizeLiveArg_iff (ArgumentDescriptor.ofArg argAddrPlain)

/-- Claim C8: getTransformedOwnershipKind returns none whenever the
descriptor is entirely dead; otherwise Trivial whenever the queried sub-type
is trivial (even if owned-to-guaranteed is set); otherwise Guaranteed
whenever owned-to-guaranteed is set; otherwise the original argument's
ownership kind — dead before trivial before owned-to-guaranteed. -/
theorem getTransformedOwnershipKind_priority
    (d : ArgumentDescriptor) (SubTy : SILType) :
    (d.IsEntirelyDead = true → d.getTransformedOwnershipKind SubTy = none) ∧
    (d.IsEntirelyDead = false → SubTy.isTrivial d.Arg.module = true →
      d.getTransformedOwnershipKind SubTy = some ValueOwnershipKind.Trivial) ∧
    (d.IsEntirelyDead = false → SubTy.isTrivial d.Arg.module = false →
      d.OwnedToGuaranteed = true →
      d.getTransformedOwnershipKind SubTy = some ValueOwnershipKind.Guaranteed) ∧
    (d.IsEntirelyDead = false → SubTy.isTrivial d.Arg.module = false →
      d.OwnedToGuaranteed = false →
      d.getTransformedOwnershipKind SubTy = some d.Arg.getOwnershipKind) := by
  refine ⟨fun h1 => ?_, fun h1 h2 => ?_, fun h1 h2 h3 => ?_, fun h1 h2 h3 => ?_⟩ <;>
    simp [ArgumentDescriptor.getTransformedOwnershipKind, *]

/-- Witness for C8, exercising all four branches: a dead descriptor with a
trivial sub-type (dead wins), a live descriptor with a trivial sub-type, an
owned-to-guaranteed descriptor with a non-trivial sub-type, and a plain
descriptor with a non-trivial sub-type. -/
theorem getTransformedOwnershipKind_priority_witness :
    descDead.getTransformedOwnershipKind objNoArchType = none ∧
    descPlain.getTransformedOwnershipKind objNoArchType =
      some ValueOwnershipKind.Trivial ∧
    descO2G.getTransformedOwnershipKind objArchType =
      some ValueOwnershipKind.Guaranteed ∧
    descPlain.getTransformedOwnershipKind objArchType =
      some descPlain.Arg.getOwnershipKind :=
  ⟨(getTransformedOwnershipKind_priority descDead objNoArchType).1 rfl,
   (getTransformedOwnershipKind_priority descPlain objNoArchType).2.1 rfl rfl,
   (getTransformedOwnershipKind_priority descO2G objArchType).2.2.1 rfl rfl rfl,
   (getTransformedOwnershipKind_priority descPlain objArchType).2.2.2 rfl rfl rfl⟩

/-- Claim C9: immediately after construction from a function argument, every
optimization-decision flag is false, both matched-release lists are empty,
and the descriptor records the argument's original index and indirect-result
flag — no optimization decision is precomputed at construction. -/
theorem argumentDescriptor_construction (A : SILFunctionArgument) :
    (ArgumentDescriptor.ofArg A).IsEntirelyDead = false ∧
    (ArgumentDescriptor.ofArg A).WasErased = false ∧
    (ArgumentDescriptor.ofArg A).Explode = false ∧
    (ArgumentDescriptor.ofArg A).OwnedToGuaranteed = false ∧
    (ArgumentDescriptor.ofArg A).CalleeRelease = [] ∧
    (ArgumentDescriptor.ofArg A).CalleeReleaseInThrowBlock = [] ∧
    (ArgumentDescriptor.ofArg A).Index = A.getIndex ∧
    (ArgumentDescriptor.ofArg A).IsIndirectResult = A.isIndirectResult :=
  ⟨rfl, rfl, rfl, rfl, rfl, rfl, rfl, rfl⟩

/-- Witness for C9, instantiated at the concrete owned argument. -/
theorem argumentDescriptor_construction_witness :
    (ArgumentDescriptor.ofArg argOwned5).IsEntirelyDead = false ∧
    (ArgumentDescriptor.ofArg argOwned5).WasErased = false ∧
    (ArgumentDescriptor.ofArg argOwned5).Explode = false ∧
    (ArgumentDescriptor.ofArg argOwned5).OwnedToGuaranteed = false ∧
    (ArgumentDescriptor.ofArg argOwned5).CalleeRelease = [] ∧
    (ArgumentDescriptor.ofArg argOwned5).CalleeReleaseInThrowBlock = [] ∧
    (ArgumentDescriptor.ofArg argOwned5).Index = argOwned5.getIndex ∧
    (ArgumentDescriptor.ofArg argOwned5).IsIndirectResult =
      argOwned5.isIndirectResult :=
  argumentDescriptor_construction argOwned5

end FSO

namespace FSO

/-- None of the pipeline steps touches the optimized-function handle or the
module's function table; analyses rewrite only descriptor bookkeeping, and
the per-analysis transforms rewrite only the current function in place. -/
theorem runAnalyses_preserves_handles (A : SubAnalyses) (st : EngineState) :
    (runAnalyses A st).1.transform.TransformDescriptor.OptimizedFunction =
      st.transform.TransformDescriptor.OptimizedFunction ∧
    (runAnalyses A st).1.functionTable = st.functionTable := by
  unfold runAnalyses
  simp only [EngineState.setArgDescs, EngineState.setResDescs,
    EngineState.setOriginal, EngineState.argDescs, EngineState.resDescs]
  split <;> split <;> simp

/-- When no analysis finds an opportunity the pipeline also leaves the
original function untouched: the rewrites are only reached behind a positive
analysis verdict. -/
theorem runAnalyses_noop_original (A : SubAnalyses) (st : EngineState)
    (h1 : ∀ ds, (A.deadArgAnalyze ds).2 = false)
    (h2 : ∀ ds rs, (A.o2gAnalyze ds rs).2 = false)
    (h3 : ∀ ds, (A.explosionAnalyze ds).2 = false) :
    (runAnalyses A st).1.transform.TransformDescriptor.OriginalFunction =
      st.transform.TransformDescriptor.OriginalFunction ∧
    (runAnalyses A st).2 = false := by
  unfold runAnalyses
  simp [h1, h2, h3, EngineState.setArgDescs, EngineState.setResDescs,
    EngineState.setOriginal, EngineState.argDescs, EngineState.resDescs]

end FSO

namespace FSO

/-- Claim C6: for every function on which none of the three sub-analyses
marks any descriptor eligible, run returns false and performs zero IR
mutations — the original function (body and signature), the module's
function table and the optimized-function handle are all unchanged, so no
specialized function is created. -/
theorem run_no_opportunity_noop (A : SubAnalyses) (st : EngineState)
    (hasCaller : Bool)
    (h1 : ∀ ds, (A.deadArgAnalyze ds).2 = false)
    (h2 : ∀ ds rs, (A.o2gAnalyze ds rs).2 = false)
    (h3 : ∀ ds, (A.explosionAnalyze ds).2 = false) :
    (FunctionSignatureTransform.run A st hasCaller).2 = false ∧
    (FunctionSignatureTransform.run A st
        hasCaller).1.transform.TransformDescriptor.OriginalFunction.body =
      st.transform.TransformDescriptor.OriginalFunction.body ∧
    (FunctionSignatureTransform.run A st
        hasCaller).1.transform.TransformDescriptor.OriginalFunction.parameters =
      st.transform.TransformDescriptor.OriginalFunction.parameters ∧
    (FunctionSignatureTransform.run A st hasCaller).1.functionTable =
      st.functionTable ∧
    (FunctionSignatureTransform.run A st
        hasCaller).1.transform.TransformDescriptor.OptimizedFunction =
      st.transform.TransformDescriptor.OptimizedFunction := by
  unfold FunctionSignatureTransform.run
  by_cases hg : (!hasCaller && !A.canRewriteIndirectReferences) = true
  · simp [hg]
  · rw [Bool.not_eq_true] at hg
    have hor := runAnalyses_noop_original A st h1 h2 h3
    have hh := runAnalyses_preserves_handles A st
    simp [hg, hor.1, hor.2, hh.1, hh.2]

/-- Witness for C6: the trivial analyses on a fresh engine state leave the
function, the table and the absent optimized handle untouched, and run
reports false. -/
theorem run_no_opportunity_noop_witness :
    (FunctionSignatureTransform.run trivialAnalyses st0 true).2 = false ∧
    (FunctionSignatureTransform.run trivialAnalyses st0
        true).1.transform.TransformDescriptor.OriginalFunction.body =
      st0.transform.TransformDescriptor.OriginalFunction.body ∧
    (FunctionSignatureTransform.run trivialAnalyses st0
        true).1.transform.TransformDescriptor.OriginalFunction.parameters =
      st0.transform.TransformDescriptor.OriginalFunction.parameters ∧
    (FunctionSignatureTransform.run trivialAnalyses st0 true).1.functionTable =
      st0.functionTable ∧
    (FunctionSignatureTransform.run trivialAnalyses st0
        true).1.transform.TransformDescriptor.OptimizedFunction =
      st0.transform.TransformDescriptor.OptimizedFunction :=
  run_no_opportunity_noop trivialAnalyses st0 true (fun _ => rfl)
    (fun _ _ => rfl) (fun _ => rfl)

/-- Claim C7: getOptimizedFunction is absent for every freshly constructed
FunctionSignatureTransform; after run on a state whose optimized handle is
still absent, the handle is present exactly when run returned true — i.e.
run returns true iff a specialized function was created. -/
theorem getOptimizedFunction_contract :
    (∀ (F : SILFunction) (AIM : List (Int × Int))
        (ADL : List ArgumentDescriptor) (RDL : List ResultDescriptor),
        (FunctionSignatureTransform.create F AIM ADL RDL).getOptimizedFunction
          = none) ∧
    (∀ (A : SubAnalyses) (st : EngineState) (hasCaller : Bool),
        st.transform.getOptimizedFunction = none →
          ((FunctionSignatureTransform.run A st hasCaller).2 = true ↔
            ((FunctionSignatureTransform.run A st
                hasCaller).1.transform.getOptimizedFunction).isSome = true)) := by
  constructor
  · intro F AIM ADL RDL
    rfl
  · intro A st hasCaller h0
    unfold FunctionSignatureTransform.getOptimizedFunction at h0 ⊢
    unfold FunctionSignatureTransform.run
    by_cases hg : (!hasCaller && !A.canRewriteIndirectReferences) = true
    · simp [hg, h0]
    · rw [Bool.not_eq_true] at hg
      cases hp : (runAnalyses A st).2 with
      | true =>
        simp [hg, hp, createFunctionSignatureOptimizedFunction]
      | false =>
        have hh := (runAnalyses_preserves_handles A st).1
        simp [hg, hp, hh, h0]

/-- Witness for C7: the fresh transform's handle is absent, and on the fresh
state the equivalence between run's verdict and the presence of the handle
holds. -/
theorem getOptimizedFunction_contract_witness :
    (FunctionSignatureTransform.create fnF0 [] [] []).getOptimizedFunction
      = none ∧
    ((FunctionSignatureTransform.run trivialAnalyses st0 true).2 = true ↔
      ((FunctionSignatureTransform.run trivialAnalyses st0
          true).1.transform.getOptimizedFunction).isSome = true) :=
  ⟨getOptimizedFunction_contract.1 fnF0 [] [] [],
   getOptimizedFunction_contract.2 trivialAnalyses st0 true rfl⟩

end FSO

namespace PowerOfTwo

/-- Claim C10, evaluated at the failing input `Int64.min`: its words
collection is the single word `2 ^ 63` (non-empty, well-formed for word
width 64), its value is the negative number `-(2 ^ 63)` — not a positive
power of two — yet `_isPowerOfTwo_words` answers true while
`_isPowerOfTwo_classic` answers false. The single-word fast path tests the
raw word bit pattern and omits the signedness check the multi-word path
performs, contradicting both its own comment ("perform the classic check")
and the claimed equivalence. -/
theorem isPowerOfTwo_words_classic_disagree_at_int64Min :
    int64Min.words = [2 ^ 63] ∧
    WellFormed int64Min ∧
    value int64Min = -(2 ^ 63) ∧
    value int64Min < 0 ∧
    _isPowerOfTwo_words int64Min = true ∧
    _isPowerOfTwo_classic int64Min = false :=
  ⟨rfl, ⟨by decide, by decide, by decide⟩, by decide, by decide, by decide,
    by decide⟩

end PowerOfTwo
